import Mathlib

/-!
Verification of the trade-executor core against its design spec.

Shallow embedding of the three core collaborators:
* `RiskManager`   (src/risk/risk_manager.py)
* `SessionManager` (src/core/session_manager.py, SQLite tables modelled as lists of rows)
* `TradingEngine` (src/core/trading_engine.py)

Prices, percentages and PnL values (Python floats) are modelled as rationals;
timestamps are rationals measured in minutes, so the cooldown comparison
`datetime.now() - last_trade_time < timedelta(minutes=cooldown)` becomes
`now - t < cooldown`.
-/

namespace TradeExec

/-- Trading configuration (src/core/config.py, `TradingConfig`). -/
structure TradingConfig where
  position_sizes : List Int
  max_daily_loss_percent : ℚ
  max_position_loss_percent : ℚ
  emergency_stop_loss_percent : ℚ
  max_trades_per_day : Nat
  cooldown_between_trades_minutes : ℚ
deriving DecidableEq

/-- The default `TradingConfig` values from src/core/config.py. -/
def default_trading_config : TradingConfig :=
  { position_sizes := [5, 10, 15, 20, 25]
    max_daily_loss_percent := 10
    max_position_loss_percent := 5
    emergency_stop_loss_percent := 15
    max_trades_per_day := 3
    cooldown_between_trades_minutes := 30 }

/-- Mutable state of `RiskManager` (risk_manager.py, `__init__`). -/
structure RiskState where
  daily_trades : Nat
  daily_pnl : ℚ
  last_trade_time : Option ℚ
  emergency_stop_triggered : Bool
deriving DecidableEq

/-- Initial `RiskManager` state (risk_manager.py, `__init__`). -/
def initRiskState : RiskState :=
  { daily_trades := 0, daily_pnl := 0, last_trade_time := none,
    emergency_stop_triggered := false }

/-- Embedding of `RiskManager.can_start_new_trade` (risk_manager.py lines 25-68).
The four early-return checks in source order: daily trade limit, cooldown,
daily loss limit, emergency stop. `now` stands for `datetime.now()`. -/
def can_start_new_trade (cfg : TradingConfig) (s : RiskState) (now : ℚ) : Bool :=
  if cfg.max_trades_per_day ≤ s.daily_trades then false
  else if (match s.last_trade_time with
           | some t => decide (now - t < cfg.cooldown_between_trades_minutes)
           | none => false) then false
  else if s.daily_pnl ≤ -cfg.max_daily_loss_percent then false
  else if s.emergency_stop_triggered then false
  else true

/-- Result of `RiskManager.validate_position_size`. -/
inductive PSResult where
  | invalid (reason : String)
  | valid (position_value : ℚ) (risk_level : String)
deriving DecidableEq

/-- The `valid` field of a `validate_position_size` result dict. -/
def PSResult.isValid : PSResult → Bool
  | .invalid _ => false
  | .valid _ _ => true

/-- Embedding of `RiskManager._assess_position_risk` (risk_manager.py lines 350-357). -/
def assess_position_risk (position_size_percent : Int) : String :=
  if position_size_percent ≤ 10 then "low"
  else if position_size_percent ≤ 20 then "medium"
  else "high"

/-- Embedding of `RiskManager.validate_position_size` (risk_manager.py lines 70-113). -/
def validate_position_size (cfg : TradingConfig) (available_balance : ℚ)
    (position_size_percent : Int) (_symbol : String) : PSResult :=
  if position_size_percent ∉ cfg.position_sizes then
    .invalid "Position size not in allowed sizes"
  else
    let position_value := available_balance * ((position_size_percent : ℚ) / 100)
    if position_value < 10 then
      .invalid "Position value below minimum 10 dollars"
    else if 25 < position_size_percent then
      .invalid "Position size exceeds maximum 25 percent"
    else
      .valid position_value (assess_position_risk position_size_percent)

/-- Result of `RiskManager.check_stop_loss_requirements`. -/
inductive SLResult where
  | invalid (reason : String)
  | valid (stop_loss_percent : ℚ) (risk_level : String)
deriving DecidableEq

/-- The `valid` field of a `check_stop_loss_requirements` result dict. -/
def SLResult.isValid : SLResult → Bool
  | .invalid _ => false
  | .valid _ _ => true

/-- The `stop_loss_percent` field of a valid `check_stop_loss_requirements`
result, when present. -/
def SLResult.percentOut : SLResult → Option ℚ
  | .invalid _ => none
  | .valid p _ => some p

/-- Python `str.lower`, written over the character list (the equivalent
`String.toLower` does not reduce in the kernel). -/
def pyLower (s : String) : String := String.mk (s.data.map Char.toLower)

/-- The directional stop-loss percentage of risk_manager.py lines 130-133:
the buy branch is taken exactly when `side.lower() == "buy"`. -/
def stop_loss_percent_of (entry_price sl : ℚ) (side : String) : ℚ :=
  if pyLower side == "buy" then ((entry_price - sl) / entry_price) * 100
  else ((sl - entry_price) / entry_price) * 100

/-- Embedding of `RiskManager.check_stop_loss_requirements` (risk_manager.py lines 115-160).
Python `if not stop_loss` is true both for `None` and for `0.0`. -/
def check_stop_loss_requirements (cfg : TradingConfig) (entry_price : ℚ)
    (stop_loss : Option ℚ) (side : String) : SLResult :=
  match stop_loss with
  | none => .invalid "Stop loss is required for all trades"
  | some sl =>
    if sl = 0 then .invalid "Stop loss is required for all trades"
    else
      let pct := stop_loss_percent_of entry_price sl side
      if cfg.max_position_loss_percent < pct then
        .invalid "Stop loss exceeds maximum"
      else if pct < 1/2 then
        .invalid "Stop loss too tight, minimum 0.5 percent"
      else
        .valid pct (if pct ≤ 2 then "low" else if pct ≤ 4 then "medium" else "high")

/-- Risk assessment dict built by `RiskManager.monitor_position_risk`. -/
structure RiskAssessment where
  pnl_percent : ℚ
  unrealized_pnl : ℚ
  risk_level : String
  action : String
  urgency : String
deriving DecidableEq

/-- The directional PnL percentage of risk_manager.py lines 172-175:
the buy branch is taken exactly when `side.lower() == "buy"`. -/
def pnl_percent_of (current_price entry_price : ℚ) (side : String) : ℚ :=
  if pyLower side == "buy" then ((current_price - entry_price) / entry_price) * 100
  else ((entry_price - current_price) / entry_price) * 100

/-- Embedding of `RiskManager.monitor_position_risk` (risk_manager.py lines 162-229). -/
def monitor_position_risk (cfg : TradingConfig) (current_price entry_price : ℚ)
    (side : String) (position_value : ℚ) : RiskAssessment :=
  let pct := pnl_percent_of current_price entry_price side
  let upnl := position_value * (pct / 100)
  if pct ≤ -cfg.emergency_stop_loss_percent then
    { pnl_percent := pct, unrealized_pnl := upnl,
      risk_level := "critical", action := "emergency_close", urgency := "immediate" }
  else if pct ≤ -cfg.max_position_loss_percent then
    { pnl_percent := pct, unrealized_pnl := upnl,
      risk_level := "high", action := "close", urgency := "high" }
  else if pct ≤ -3 then
    { pnl_percent := pct, unrealized_pnl := upnl,
      risk_level := "medium", action := "monitor_closely", urgency := "medium" }
  else if 10 ≤ pct then
    { pnl_percent := pct, unrealized_pnl := upnl,
      risk_level := "low", action := "consider_profit_taking", urgency := "low" }
  else
    { pnl_percent := pct, unrealized_pnl := upnl,
      risk_level := "low", action := "hold", urgency := "low" }

/-- Embedding of `RiskManager.update_daily_metrics` (risk_manager.py lines 231-249):
increments the counters, stamps the trade time, and when the accumulated
daily PnL reaches the loss limit calls `trigger_daily_stop`, which sets
`emergency_stop_triggered`. -/
def update_daily_metrics (cfg : TradingConfig) (s : RiskState)
    (trade_pnl now : ℚ) : RiskState :=
  let s1 := { s with daily_trades := s.daily_trades + 1,
                     daily_pnl := s.daily_pnl + trade_pnl,
                     last_trade_time := some now }
  if s1.daily_pnl ≤ -cfg.max_daily_loss_percent then
    { s1 with emergency_stop_triggered := true }
  else s1

/-- Embedding of `RiskManager.trigger_emergency_stop` (risk_manager.py lines 251-266). -/
def trigger_emergency_stop (s : RiskState) : RiskState :=
  { s with emergency_stop_triggered := true }

/-- Embedding of `RiskManager.trigger_daily_stop` (risk_manager.py lines 268-282). -/
def trigger_daily_stop (s : RiskState) : RiskState :=
  { s with emergency_stop_triggered := true }

/-- Embedding of `RiskManager.reset_daily_limits` (risk_manager.py lines 284-295). -/
def reset_daily_limits : RiskState :=
  { daily_trades := 0, daily_pnl := 0, last_trade_time := none,
    emergency_stop_triggered := false }

/-- The mutating operations of `RiskManager`; the query methods
(`can_start_new_trade`, the validators, `get_risk_status`, `get_risk_limits`)
do not write the state. -/
inductive RiskOp where
  | updateDailyMetrics (trade_pnl now : ℚ)
  | triggerEmergencyStop
  | triggerDailyStop
  | resetDailyLimits
deriving DecidableEq

/-- One mutating `RiskManager` call. -/
def riskStep (cfg : TradingConfig) (s : RiskState) : RiskOp → RiskState
  | .updateDailyMetrics p now => update_daily_metrics cfg s p now
  | .triggerEmergencyStop => trigger_emergency_stop s
  | .triggerDailyStop => trigger_daily_stop s
  | .resetDailyLimits => reset_daily_limits

/-- Embedding of `RiskManager._is_cooldown_active` (risk_manager.py lines 359-367). -/
def is_cooldown_active (cfg : TradingConfig) (s : RiskState) (now : ℚ) : Bool :=
  match s.last_trade_time with
  | none => false
  | some t => decide (now - t < cfg.cooldown_between_trades_minutes)

/-- Summary dict built by `RiskManager.get_risk_status`. -/
structure RiskStatus where
  overall_risk_level : String
  can_trade : Bool
  remaining_trades : Nat
  remaining_loss_capacity_percent : ℚ
  daily_pnl : ℚ
  daily_trades : Nat
  emergency_stop_active : Bool
  cooldown_active : Bool
deriving DecidableEq

/-- Embedding of `RiskManager.get_risk_status` (risk_manager.py lines 312-348).
`remaining_trades` uses Nat subtraction for Python `max(0, a - b)`. -/
def get_risk_status (cfg : TradingConfig) (s : RiskState) (now : ℚ) : RiskStatus :=
  let remaining_trades := cfg.max_trades_per_day - s.daily_trades
  let remaining_loss_capacity := max 0 (cfg.max_daily_loss_percent + s.daily_pnl)
  let overall_risk :=
    if s.emergency_stop_triggered then "critical"
    else if remaining_trades = 0 ∨ remaining_loss_capacity ≤ 1 then "high"
    else if remaining_trades ≤ 1 ∨ remaining_loss_capacity ≤ 3 then "medium"
    else "low"
  { overall_risk_level := overall_risk
    can_trade := !s.emergency_stop_triggered && decide (0 < remaining_trades)
    remaining_trades := remaining_trades
    remaining_loss_capacity_percent := remaining_loss_capacity
    daily_pnl := s.daily_pnl
    daily_trades := s.daily_trades
    emergency_stop_active := s.emergency_stop_triggered
    cooldown_active := is_cooldown_active cfg s now }

/-! ## SessionManager (src/core/session_manager.py)

The SQLite tables are modelled as lists of rows; `UPDATE ... WHERE id = ?`
becomes a map over the list that rewrites exactly the matching rows. -/

/-- A row of the `sessions` table (session_manager.py lines 37-48). -/
structure SessionRow where
  id : String
  created_at : String
  ended_at : Option String
  status : String
  emergency_stop : Bool
  total_trades : Nat
  total_pnl : ℚ
  metadata : Option String
deriving DecidableEq

/-- A row of the `trades` table (session_manager.py lines 51-74). -/
structure TradeRow where
  id : String
  session_id : String
  symbol : String
  side : String
  quantity : ℚ
  entry_price : Option ℚ
  exit_price : Option ℚ
  stop_loss : Option ℚ
  take_profit : Option ℚ
  order_id : Option String
  order_link_id : Option String
  status : String
  created_at : String
  closed_at : Option String
  pnl : ℚ
  decision_reasoning : Option String
  confidence : Option ℚ
  emergency_close : Bool
  metadata : Option String
deriving DecidableEq

/-- A row of the `risk_events` table (session_manager.py lines 94-105). -/
structure RiskEventRow where
  id : Nat
  session_id : Option String
  trade_id : Option String
  event_type : String
  severity : String
  description : String
  created_at : String
  metadata : String
deriving DecidableEq

/-- A row of the `performance_metrics` table (session_manager.py lines 77-91). -/
structure PerfRow where
  id : Nat
  date : String
  total_trades : Nat
  winning_trades : Nat
  losing_trades : Nat
  total_pnl : ℚ
  win_rate : ℚ
  avg_win : ℚ
  avg_loss : ℚ
  max_drawdown : ℚ
  created_at : String
deriving DecidableEq

/-- The SQLite database owned by `SessionManager`. -/
structure DB where
  sessions : List SessionRow
  trades : List TradeRow
  risk_events : List RiskEventRow
  performance_metrics : List PerfRow
deriving DecidableEq

/-- Result dict of `SessionManager.end_session`. -/
structure EndSessionResult where
  session_id : String
  ended_at : String
  total_trades : Nat
  total_pnl : ℚ
  emergency : Bool
deriving DecidableEq

/-- Embedding of `SessionManager.end_session` (session_manager.py lines 143-195):
stamps `ended_at`/`status`/`emergency_stop` on the session row, then computes
`COUNT(*)` and `COALESCE(SUM(pnl), 0)` over the trades owned by the session,
and stores those totals back on the session row. `ended_at` stands for
`datetime.now().isoformat()` taken at the call. -/
def end_session (db : DB) (session_id : String) (emergency : Bool)
    (ended_at : String) : DB × EndSessionResult :=
  let sessions1 := db.sessions.map (fun r =>
    if r.id == session_id then
      { r with ended_at := some ended_at, status := "ended",
               emergency_stop := emergency }
    else r)
  let owned := db.trades.filter (fun t => t.session_id == session_id)
  let total_trades := owned.length
  let total_pnl := (owned.map TradeRow.pnl).sum
  let sessions2 := sessions1.map (fun r =>
    if r.id == session_id then
      { r with total_trades := total_trades, total_pnl := total_pnl }
    else r)
  ({ db with sessions := sessions2 },
   { session_id := session_id, ended_at := ended_at,
     total_trades := total_trades, total_pnl := total_pnl,
     emergency := emergency })

/-- The in-memory trade dict held by the engine (`self.current_trade`),
the argument of `SessionManager.update_trade`. Keys read with `.get` may be
absent, hence the `Option` fields; `metadata` models the `json.dumps` of the
metadata dict, already serialised to a string. -/
structure ETrade where
  id : String
  session_id : String
  symbol : String
  side : String
  quantity : ℚ
  entry_price : Option ℚ
  exit_price : Option ℚ
  stop_loss : Option ℚ
  take_profit : Option ℚ
  order_id : Option String
  order_link_id : Option String
  status : String
  created_at : String
  closed_at : Option String
  pnl : Option ℚ
  emergency_close : Option Bool
  metadata : String
deriving DecidableEq

/-- Embedding of `SessionManager.update_trade` (session_manager.py lines 235-269):
`UPDATE trades SET exit_price, stop_loss, take_profit, status, closed_at,
pnl, emergency_close, metadata WHERE id = ?`. The Python defaults
`trade.get("pnl", 0.0)` and `trade.get("emergency_close", False)` become
`getD`. -/
def update_trade (db : DB) (trade : ETrade) : DB :=
  { db with trades := db.trades.map (fun r =>
      if r.id == trade.id then
        { r with exit_price := trade.exit_price
                 stop_loss := trade.stop_loss
                 take_profit := trade.take_profit
                 status := trade.status
                 closed_at := trade.closed_at
                 pnl := trade.pnl.getD 0
                 emergency_close := trade.emergency_close.getD false
                 metadata := some trade.metadata }
      else r) }

/-! ## TradingEngine (src/core/trading_engine.py) -/

/-- The session dict returned by `SessionManager.create_session` and held by
the engine as `self.current_session`. -/
structure SessionInfo where
  id : String
  created_at : String
deriving DecidableEq

/-- The engine state relevant to the session lifecycle
(trading_engine.py, `__init__`). -/
structure EngineState where
  current_session : Option SessionInfo
  current_trade : Option ETrade
  is_running : Bool
deriving DecidableEq

/-- Result of `TradingEngine.stop_trading_session`: either the success dict
or one of the structured error dicts. -/
inductive StopResult where
  | ok (message : String)
  | error (message : String)
deriving DecidableEq

/-- Embedding of `TradingEngine._emergency_close_position` (trading_engine.py lines
456-483): marks the current trade closed with `emergency_close = True` and
persists it via `update_trade`. The exchange market order is an external
call with no effect on engine state or database. -/
def emergency_close_position (st : EngineState) (db : DB) (now : String) :
    EngineState × DB :=
  match st.current_trade with
  | none => (st, db)
  | some tr =>
    let tr1 := { tr with status := "closed", closed_at := some now,
                         emergency_close := some true }
    ({ st with current_trade := some tr1 }, update_trade db tr1)

/-- Embedding of `TradingEngine._close_position_gracefully` (trading_engine.py lines
419-454): cancels open orders and places the opposing market order (external
calls), marks the trade closed, persists it, then `_start_cooldown` clears
`current_trade` (its follow-up market re-analysis is an external call, not
modelled). -/
def close_position_gracefully (st : EngineState) (db : DB) (now : String) :
    EngineState × DB :=
  match st.current_trade with
  | none => (st, db)
  | some tr =>
    let tr1 := { tr with status := "closed", closed_at := some now }
    ({ st with current_trade := none }, update_trade db tr1)

/-- Embedding of `TradingEngine.stop_trading_session` (trading_engine.py lines 93-135).
When `is_running` is false it returns the structured error dict at once and
touches nothing. Otherwise: stop the loops, resolve an active trade
(emergency or graceful), end the session, and reset the in-memory state.
`now` stands for the call-time timestamp string. -/
def stop_trading_session (st : EngineState) (db : DB) (emergency : Bool)
    (now : String) : StopResult × EngineState × DB :=
  if st.is_running = false then
    (.error "No active trading session", st, db)
  else
    let st1 := { st with is_running := false }
    let closeStep :=
      match st1.current_trade with
      | some tr =>
        if tr.status == "active" then
          if emergency then emergency_close_position st1 db now
          else close_position_gracefully st1 db now
        else (st1, db)
      | none => (st1, db)
    let st2 := closeStep.1
    let db1 := closeStep.2
    let db2 :=
      match st2.current_session with
      | some s => (end_session db1 s.id emergency now).1
      | none => db1
    (.ok "Trading session stopped successfully",
     { st2 with current_session := none, current_trade := none }, db2)

/-- Result dict of `RiskManager.validate_trade_parameters`: the `valid` flag
and the accumulated `errors` list. -/
structure TPResult where
  valid : Bool
  errors : List String
deriving DecidableEq

/-- Embedding of `RiskManager.validate_trade_parameters` (risk_manager.py lines 369-426).
The checks run in source order, each appending its error; the stop-loss
check runs only under Python `if stop_loss:`, which skips both `None` and a
falsy `0`. -/
def validate_trade_parameters (cfg : TradingConfig) (s : RiskState) (now : ℚ)
    (_symbol : String) (side : String) (quantity entry_price : ℚ)
    (stop_loss _take_profit : Option ℚ) (position_size_percent : Int)
    (available_balance : ℚ) : TPResult :=
  let r0 : TPResult := { valid := true, errors := [] }
  let r1 :=
    if can_start_new_trade cfg s now = false then
      { r0 with valid := false,
                errors := r0.errors ++ ["New trade not allowed due to risk limits"] }
    else r0
  let position_validation :=
    validate_position_size cfg available_balance position_size_percent _symbol
  let r2 :=
    match position_validation with
    | .invalid reason => { r1 with valid := false, errors := r1.errors ++ [reason] }
    | .valid _ _ => r1
  let r3 :=
    match stop_loss with
    | some sl =>
      if sl ≠ 0 then
        match check_stop_loss_requirements cfg entry_price stop_loss side with
        | .invalid reason => { r2 with valid := false, errors := r2.errors ++ [reason] }
        | .valid _ _ => r2
      else r2
    | none => r2
  let r4 :=
    if quantity ≤ 0 then
      { r3 with valid := false, errors := r3.errors ++ ["Quantity must be positive"] }
    else r3
  if entry_price ≤ 0 then
    { r4 with valid := false, errors := r4.errors ++ ["Entry price must be positive"] }
  else r4

/-! ## Helper lemmas -/

/-- The admission gate in logical form: the four early-return checks of
`can_start_new_trade` in source order. -/
theorem can_start_iff (cfg : TradingConfig) (s : RiskState) (now : ℚ) :
    can_start_new_trade cfg s now = true ↔
      (s.daily_trades < cfg.max_trades_per_day ∧
       (s.last_trade_time = none ∨
         ∃ t, s.last_trade_time = some t ∧
           cfg.cooldown_between_trades_minutes ≤ now - t) ∧
       -cfg.max_daily_loss_percent < s.daily_pnl ∧
       s.emergency_stop_triggered = false) := by
  unfold can_start_new_trade
  rcases hlt : s.last_trade_time with _ | t <;>
    simp only [hlt] <;>
    split_ifs with h1 h2 h3 h4 <;>
    simp_all [not_le, not_lt]

/-- While the emergency latch is set the admission gate is closed. -/
theorem can_start_false_of_emergency (cfg : TradingConfig) (s : RiskState)
    (now : ℚ) (h : s.emergency_stop_triggered = true) :
    can_start_new_trade cfg s now = false := by
  unfold can_start_new_trade
  split_ifs <;> simp_all

/-- No mutating `RiskManager` call other than `reset_daily_limits` clears the
emergency latch. -/
theorem riskStep_preserves_emergency (cfg : TradingConfig) (s : RiskState)
    (op : RiskOp) (hop : op ≠ RiskOp.resetDailyLimits)
    (h : s.emergency_stop_triggered = true) :
    (riskStep cfg s op).emergency_stop_triggered = true := by
  cases op with
  | updateDailyMetrics p now =>
      simp only [riskStep, update_daily_metrics]
      split_ifs <;> simp [h]
  | triggerEmergencyStop => simp [riskStep, trigger_emergency_stop]
  | triggerDailyStop => simp [riskStep, trigger_daily_stop]
  | resetDailyLimits => exact absurd rfl hop

/-- The latch survives any sequence of mutating calls that avoids
`reset_daily_limits`. -/
theorem foldl_preserves_emergency (cfg : TradingConfig) (ops : List RiskOp) :
    ∀ s : RiskState, RiskOp.resetDailyLimits ∉ ops →
      s.emergency_stop_triggered = true →
      (ops.foldl (riskStep cfg) s).emergency_stop_triggered = true := by
  induction ops with
  | nil => intro s _ h; simpa using h
  | cons op rest ih =>
      intro s hno h
      rw [List.mem_cons, not_or] at hno
      exact ih _ hno.2
        (riskStep_preserves_emergency cfg s op (fun he => hno.1 he.symm) h)

/-! ## Claim theorems -/

/-- C1. `can_start_new_trade` is true iff the daily trade count is below the
limit, no cooldown is pending (no last trade time, or at least the configured
cooldown has elapsed), the daily PnL is strictly above the negated daily loss
limit, and the emergency stop is not triggered; in particular it is false
whenever the daily trade count has reached `max_trades_per_day`. -/
theorem can_start_new_trade_spec (cfg : TradingConfig) (s : RiskState) (now : ℚ) :
    (can_start_new_trade cfg s now = true ↔
      (s.daily_trades < cfg.max_trades_per_day ∧
       (s.last_trade_time = none ∨
         ∃ t, s.last_trade_time = some t ∧
           cfg.cooldown_between_trades_minutes ≤ now - t) ∧
       -cfg.max_daily_loss_percent < s.daily_pnl ∧
       s.emergency_stop_triggered = false)) ∧
    (cfg.max_trades_per_day ≤ s.daily_trades →
      can_start_new_trade cfg s now = false) := by
  refine ⟨can_start_iff cfg s now, fun hge => ?_⟩
  rcases hcs : can_start_new_trade cfg s now with _ | _
  · rfl
  · have := (can_start_iff cfg s now).1 hcs
    omega

/-- C2. `update_daily_metrics` sets the emergency latch whenever the
accumulated daily PnL reaches the negated daily loss limit; and once the
latch is set, every mutating `RiskManager` call other than
`reset_daily_limits` leaves it set, at every intermediate point of the call
sequence, with `can_start_new_trade` false at each of those points. -/
theorem riskgate_emergency_latch (cfg : TradingConfig) (s : RiskState)
    (ops : List RiskOp) (h : s.emergency_stop_triggered = true)
    (hno : RiskOp.resetDailyLimits ∉ ops) :
    (∀ (s2 : RiskState) (p n2 : ℚ),
      (update_daily_metrics cfg s2 p n2).daily_pnl ≤ -cfg.max_daily_loss_percent →
      (update_daily_metrics cfg s2 p n2).emergency_stop_triggered = true) ∧
    ∀ (n : Nat) (now : ℚ),
      ((ops.take n).foldl (riskStep cfg) s).emergency_stop_triggered = true ∧
      can_start_new_trade cfg ((ops.take n).foldl (riskStep cfg) s) now = false := by
  constructor
  · intro s2 p n2 hle
    simp only [update_daily_metrics] at hle ⊢
    split_ifs at hle ⊢ with hc
    · rfl
    · exact absurd hle hc
  intro n now
  have hm : RiskOp.resetDailyLimits ∉ ops.take n :=
    fun hmem => hno (List.take_subset n ops hmem)
  have he := foldl_preserves_emergency cfg (ops.take n) s hm h
  exact ⟨he, can_start_false_of_emergency cfg _ now he⟩

/-- Concrete run of the latch theorem: a latched state stays latched across
an `update_daily_metrics` and a `trigger_daily_stop`, with the gate closed. -/
def opsC2 : List RiskOp := [RiskOp.updateDailyMetrics (-5) 0, RiskOp.triggerDailyStop]

/-- Witness for C2 at a concrete latched state and call sequence. -/
theorem riskgate_emergency_latch_witness :
    (RiskState.mk 1 (-2) (some 0) true).emergency_stop_triggered = true ∧
    RiskOp.resetDailyLimits ∉ opsC2 ∧
    (((opsC2.take 2).foldl (riskStep default_trading_config)
        (RiskState.mk 1 (-2) (some 0) true)).emergency_stop_triggered = true ∧
     can_start_new_trade default_trading_config
        ((opsC2.take 2).foldl (riskStep default_trading_config)
          (RiskState.mk 1 (-2) (some 0) true)) 0 = false) :=
  ⟨rfl, by decide,
    (riskgate_emergency_latch default_trading_config (RiskState.mk 1 (-2) (some 0) true)
      opsC2 rfl (by decide)).2 2 0⟩

/-- The string "long" does not lowercase to "buy", so the sell branch is
taken for it. -/
theorem pyLower_long : (pyLower "long" == "buy") = false := by decide

/-- The string "buy" lowercases to "buy", so the buy branch is taken. -/
theorem pyLower_buy : (pyLower "buy" == "buy") = true := by decide

/-- A configuration whose position-loss ceiling is 100, used to refute the
original C3 reading at a zero stop loss. -/
def cfgC3 : TradingConfig :=
  { default_trading_config with max_position_loss_percent := 100 }

/-- C3 counterexample, refuting the claim at two concrete inputs. First,
with the default configuration (so `max_position_loss_percent = 5 ≥ 3`),
`entry_price = 100`, `stop_loss = 97` and `side = "long"` the code takes the
sell branch (`side.lower() == "buy"` is false), computes
`stop_loss_percent = -3`, and rejects the stop loss — not the valid result
with `stop_loss_percent = 3` the claim states. Second, with the ceiling at
100, a supplied stop loss of `0` on the buy side has directional percent 100
inside [0.5, 100], yet the code rejects it through the falsy
`if not stop_loss` check — so a supplied-but-zero stop loss is not governed
by the in-range rule the claim states. -/
theorem check_stop_loss_long_counterexample :
    (3 : ℚ) ≤ default_trading_config.max_position_loss_percent ∧
    stop_loss_percent_of 100 97 "long" = -3 ∧
    check_stop_loss_requirements default_trading_config 100 (some 97) "long" =
      SLResult.invalid "Stop loss too tight, minimum 0.5 percent" ∧
    (1/2 ≤ stop_loss_percent_of 100 0 "buy" ∧
     stop_loss_percent_of 100 0 "buy" ≤ cfgC3.max_position_loss_percent) ∧
    check_stop_loss_requirements cfgC3 100 (some 0) "buy" =
      SLResult.invalid "Stop loss is required for all trades" := by
  refine ⟨by norm_num [default_trading_config], ?_, ?_, ⟨?_, ?_⟩, ?_⟩
  · simp only [stop_loss_percent_of, pyLower_long, Bool.false_eq_true, if_false]
    norm_num
  · norm_num [check_stop_loss_requirements, stop_loss_percent_of, pyLower_long,
      default_trading_config]
  · simp only [stop_loss_percent_of, pyLower_buy, if_true]
    norm_num
  · simp only [stop_loss_percent_of, pyLower_buy, if_true]
    norm_num [cfgC3, default_trading_config]
  · simp [check_stop_loss_requirements]

/-- C3 (amended). `check_stop_loss_requirements` rejects a missing stop loss
and likewise a supplied zero stop loss (Python's falsy `if not stop_loss`
treats both alike); for a present, non-zero stop loss it is valid exactly
when the directional stop-loss percent lies within
[0.5, max_position_loss_percent], and a valid result reports that percent;
the direction is selected by `side.lower() == "buy"`, so the scenario
entry=100, stop=97 on the buy (long) side yields percent 3 and a valid
result whenever `max_position_loss_percent ≥ 3`. -/
theorem check_stop_loss_requirements_spec (cfg : TradingConfig)
    (entry_price sl : ℚ) (side : String) :
    (check_stop_loss_requirements cfg entry_price none side).isValid = false ∧
    (check_stop_loss_requirements cfg entry_price (some 0) side).isValid = false ∧
    (sl ≠ 0 →
      ((check_stop_loss_requirements cfg entry_price (some sl) side).isValid = true ↔
        (1/2 ≤ stop_loss_percent_of entry_price sl side ∧
         stop_loss_percent_of entry_price sl side ≤ cfg.max_position_loss_percent)) ∧
      ((check_stop_loss_requirements cfg entry_price (some sl) side).isValid = true →
        (check_stop_loss_requirements cfg entry_price (some sl) side).percentOut =
          some (stop_loss_percent_of entry_price sl side))) ∧
    (stop_loss_percent_of 100 97 "buy" = 3 ∧
     (3 ≤ cfg.max_position_loss_percent →
       (check_stop_loss_requirements cfg 100 (some 97) "buy").isValid = true ∧
       (check_stop_loss_requirements cfg 100 (some 97) "buy").percentOut = some 3)) := by
  have h3 : stop_loss_percent_of 100 97 "buy" = 3 := by
    simp only [stop_loss_percent_of, pyLower_buy, if_true]
    norm_num
  refine ⟨rfl, by simp [check_stop_loss_requirements, SLResult.isValid],
    fun hsl => ?_, h3, fun hmax => ?_⟩
  · simp only [check_stop_loss_requirements]
    split_ifs <;>
      simp_all [SLResult.isValid, SLResult.percentOut, not_lt, not_le]
  · simp only [check_stop_loss_requirements]
    rw [if_neg (by norm_num : ¬(97 : ℚ) = 0), h3, if_neg (not_lt.2 hmax),
      if_neg (by norm_num : ¬(3 : ℚ) < 1/2)]
    exact ⟨rfl, rfl⟩

/-- Witness for C3 (amended) at the default configuration. -/
theorem check_stop_loss_requirements_spec_witness :
    (97 : ℚ) ≠ 0 ∧ (3 : ℚ) ≤ default_trading_config.max_position_loss_percent ∧
    (check_stop_loss_requirements default_trading_config 100 (some 97) "buy").isValid
        = true ∧
    (check_stop_loss_requirements default_trading_config 100 (some 97) "buy").percentOut
        = some 3 :=
  ⟨by norm_num, by norm_num [default_trading_config],
    ((check_stop_loss_requirements_spec default_trading_config 100 97 "buy").2.2.2.2
      (by norm_num [default_trading_config])).1,
    ((check_stop_loss_requirements_spec default_trading_config 100 97 "buy").2.2.2.2
      (by norm_num [default_trading_config])).2⟩

/-- C4 counterexample. With the default configuration
(`emergency_stop_loss_percent = 15 ≤ 20`), `entry_price = 100`,
`current_price = 80` and `side = "long"` the code takes the sell branch, so
the PnL percent is `+20` and the action is `consider_profit_taking` — not
`pnl_percent = -20` with action `emergency_close` as the claim states. -/
theorem monitor_position_long_counterexample :
    default_trading_config.emergency_stop_loss_percent ≤ 20 ∧
    (monitor_position_risk default_trading_config 80 100 "long" 1000).pnl_percent = 20 ∧
    (monitor_position_risk default_trading_config 80 100 "long" 1000).action =
      "consider_profit_taking" := by
  refine ⟨by norm_num [default_trading_config], ?_, ?_⟩ <;>
    norm_num [monitor_position_risk, pnl_percent_of, pyLower_long,
      default_trading_config]

/-- C4 (amended). The directional PnL percent (buy branch exactly when
`side.lower() == "buy"`) selects exactly one tier of the elif ladder of
`monitor_position_risk`, and the scenario entry=100, current=80 on the buy
(long) side yields PnL percent −20 and action `emergency_close` whenever
`emergency_stop_loss_percent ≤ 20`. -/
theorem monitor_position_risk_spec (cfg : TradingConfig)
    (current_price entry_price : ℚ) (side : String) (position_value : ℚ) :
    (monitor_position_risk cfg current_price entry_price side position_value).pnl_percent
        = pnl_percent_of current_price entry_price side ∧
    (pnl_percent_of current_price entry_price side ≤ -cfg.emergency_stop_loss_percent →
      (monitor_position_risk cfg current_price entry_price side position_value).risk_level
          = "critical" ∧
      (monitor_position_risk cfg current_price entry_price side position_value).action
          = "emergency_close" ∧
      (monitor_position_risk cfg current_price entry_price side position_value).urgency
          = "immediate") ∧
    (-cfg.emergency_stop_loss_percent < pnl_percent_of current_price entry_price side →
      pnl_percent_of current_price entry_price side ≤ -cfg.max_position_loss_percent →
      (monitor_position_risk cfg current_price entry_price side position_value).risk_level
          = "high" ∧
      (monitor_position_risk cfg current_price entry_price side position_value).action
          = "close" ∧
      (monitor_position_risk cfg current_price entry_price side position_value).urgency
          = "high") ∧
    (-cfg.emergency_stop_loss_percent < pnl_percent_of current_price entry_price side →
      -cfg.max_position_loss_percent < pnl_percent_of current_price entry_price side →
      pnl_percent_of current_price entry_price side ≤ -3 →
      (monitor_position_risk cfg current_price entry_price side position_value).risk_level
          = "medium" ∧
      (monitor_position_risk cfg current_price entry_price side position_value).action
          = "monitor_closely" ∧
      (monitor_position_risk cfg current_price entry_price side position_value).urgency
          = "medium") ∧
    (-cfg.emergency_stop_loss_percent < pnl_percent_of current_price entry_price side →
      -cfg.max_position_loss_percent < pnl_percent_of current_price entry_price side →
      -3 < pnl_percent_of current_price entry_price side →
      10 ≤ pnl_percent_of current_price entry_price side →
      (monitor_position_risk cfg current_price entry_price side position_value).risk_level
          = "low" ∧
      (monitor_position_risk cfg current_price entry_price side position_value).action
          = "consider_profit_taking" ∧
      (monitor_position_risk cfg current_price entry_price side position_value).urgency
          = "low") ∧
    (-cfg.emergency_stop_loss_percent < pnl_percent_of current_price entry_price side →
      -cfg.max_position_loss_percent < pnl_percent_of current_price entry_price side →
      -3 < pnl_percent_of current_price entry_price side →
      pnl_percent_of current_price entry_price side < 10 →
      (monitor_position_risk cfg current_price entry_price side position_value).risk_level
          = "low" ∧
      (monitor_position_risk cfg current_price entry_price side position_value).action
          = "hold" ∧
      (monitor_position_risk cfg current_price entry_price side position_value).urgency
          = "low") ∧
    (pnl_percent_of 80 100 "buy" = -20 ∧
     (cfg.emergency_stop_loss_percent ≤ 20 →
       (monitor_position_risk cfg 80 100 "buy" position_value).action
           = "emergency_close")) := by
  have h20 : pnl_percent_of 80 100 "buy" = -20 := by
    simp only [pnl_percent_of, pyLower_buy, if_true]
    norm_num
  simp only [monitor_position_risk]
  refine ⟨?_, ?_, ?_, ?_, ?_, ?_, h20, fun hem => ?_⟩
  · split_ifs <;> rfl
  · intro h1; rw [if_pos h1]; exact ⟨rfl, rfl, rfl⟩
  · intro h1 h2
    rw [if_neg (not_le.2 h1), if_pos h2]; exact ⟨rfl, rfl, rfl⟩
  · intro h1 h2 h3
    rw [if_neg (not_le.2 h1), if_neg (not_le.2 h2), if_pos h3]; exact ⟨rfl, rfl, rfl⟩
  · intro h1 h2 h3 h4
    rw [if_neg (not_le.2 h1), if_neg (not_le.2 h2), if_neg (not_le.2 h3), if_pos h4]
    exact ⟨rfl, rfl, rfl⟩
  · intro h1 h2 h3 h4
    rw [if_neg (not_le.2 h1), if_neg (not_le.2 h2), if_neg (not_le.2 h3),
      if_neg (not_le.2 h4)]
    exact ⟨rfl, rfl, rfl⟩
  · rw [h20, if_pos (by linarith : (-20 : ℚ) ≤ -cfg.emergency_stop_loss_percent)]

/-- Witness for C4 (amended): the critical tier at the default configuration
and the buy-side scenario. -/
theorem monitor_position_risk_spec_witness :
    pnl_percent_of 80 100 "buy" ≤ -default_trading_config.emergency_stop_loss_percent ∧
    default_trading_config.emergency_stop_loss_percent ≤ 20 ∧
    ((monitor_position_risk default_trading_config 80 100 "buy" 1000).risk_level
        = "critical" ∧
     (monitor_position_risk default_trading_config 80 100 "buy" 1000).action
        = "emergency_close" ∧
     (monitor_position_risk default_trading_config 80 100 "buy" 1000).urgency
        = "immediate") ∧
    (monitor_position_risk default_trading_config 80 100 "buy" 1000).action
        = "emergency_close" :=
  ⟨by simp only [pnl_percent_of, pyLower_buy, if_true]; norm_num [default_trading_config],
    by norm_num [default_trading_config],
    (monitor_position_risk_spec default_trading_config 80 100 "buy" 1000).2.1
      (by simp only [pnl_percent_of, pyLower_buy, if_true]
          norm_num [default_trading_config]),
    (monitor_position_risk_spec default_trading_config 80 100 "buy" 1000).2.2.2.2.2.2.2
      (by norm_num [default_trading_config])⟩

/-- C5. `validate_position_size` is valid iff the percent is one of the
configured buckets, the notional value `balance * percent / 100` is at least
10 dollars, and the percent does not exceed the non-configurable ceiling 25;
any percent outside the bucket set is invalid regardless of the other
inputs; a valid result carries the computed notional value; and the scenario
balance 1000, percent 10 gives value 100, valid, risk level "low". -/
theorem validate_position_size_spec (cfg : TradingConfig) (balance : ℚ)
    (percent : Int) (symbol : String) :
    ((validate_position_size cfg balance percent symbol).isValid = true ↔
      (percent ∈ cfg.position_sizes ∧ 10 ≤ balance * ((percent : ℚ) / 100) ∧
       percent ≤ 25)) ∧
    (percent ∉ cfg.position_sizes →
      (validate_position_size cfg balance percent symbol).isValid = false) ∧
    ((validate_position_size cfg balance percent symbol).isValid = true →
      validate_position_size cfg balance percent symbol =
        PSResult.valid (balance * ((percent : ℚ) / 100)) (assess_position_risk percent)) ∧
    validate_position_size default_trading_config 1000 10 "BTCUSDT" =
      PSResult.valid 100 "low" := by
  refine ⟨?_, ?_, ?_, ?_⟩
  · unfold validate_position_size
    split_ifs <;> simp_all [PSResult.isValid, not_lt, not_le] <;>
      split_ifs <;> simp_all [not_lt, not_le]
  · intro hmem
    unfold validate_position_size
    rw [if_pos hmem]
    rfl
  · unfold validate_position_size
    split_ifs <;> simp_all [PSResult.isValid] <;>
      split_ifs <;> simp_all
  · norm_num [validate_position_size, assess_position_risk, default_trading_config]

/-- C6 counterexample. With the default configuration, a state with no
trades today, zero PnL and a trade stamped at the current instant is inside
the cooldown window, so `can_start_new_trade` is false, yet
`get_risk_status` reports `can_trade = true`: the two are not equivalent. -/
theorem get_risk_status_can_trade_counterexample :
    (get_risk_status default_trading_config
        (RiskState.mk 0 0 (some 0) false) 0).can_trade = true ∧
    can_start_new_trade default_trading_config
        (RiskState.mk 0 0 (some 0) false) 0 = false := by
  constructor
  · norm_num [get_risk_status, default_trading_config]
  · norm_num [can_start_new_trade, default_trading_config]

/-- C6 (amended). `get_risk_status` reports `can_trade` true iff the
emergency stop is not triggered and remaining trade capacity is positive;
`can_start_new_trade() = true` implies `can_trade = true`, but not
conversely, because `can_trade` consults neither the cooldown nor the daily
PnL; the overall risk level is derived from the remaining capacities and the
emergency flag, and a "low" or "medium" level entails `can_trade = true`. -/
theorem get_risk_status_spec (cfg : TradingConfig) (s : RiskState) (now : ℚ) :
    ((get_risk_status cfg s now).can_trade = true ↔
      (s.emergency_stop_triggered = false ∧
       s.daily_trades < cfg.max_trades_per_day)) ∧
    ((get_risk_status cfg s now).remaining_trades =
      cfg.max_trades_per_day - s.daily_trades) ∧
    ((get_risk_status cfg s now).remaining_loss_capacity_percent =
      max 0 (cfg.max_daily_loss_percent + s.daily_pnl)) ∧
    (can_start_new_trade cfg s now = true →
      (get_risk_status cfg s now).can_trade = true) ∧
    ((get_risk_status cfg s now).overall_risk_level = "low" ∨
      (get_risk_status cfg s now).overall_risk_level = "medium" →
      (get_risk_status cfg s now).can_trade = true) := by
  have hct : (get_risk_status cfg s now).can_trade = true ↔
      (s.emergency_stop_triggered = false ∧
       s.daily_trades < cfg.max_trades_per_day) := by
    simp [get_risk_status, Nat.sub_pos_iff_lt, Bool.not_eq_true']
  refine ⟨hct, rfl, rfl, fun hcs => ?_, fun hlvl => ?_⟩
  · have h := (can_start_iff cfg s now).1 hcs
    exact hct.2 ⟨h.2.2.2, h.1⟩
  · refine hct.2 ?_
    simp only [get_risk_status] at hlvl
    split_ifs at hlvl with h1 h2 h3
    · simp at hlvl
    · simp at hlvl
    · refine ⟨Bool.eq_false_iff.2 (fun he => by simp [he] at h1), ?_⟩
      rw [not_or] at h2
      omega
    · refine ⟨Bool.eq_false_iff.2 (fun he => by simp [he] at h1), ?_⟩
      rw [not_or] at h2
      omega

/-- Witness for C6 (amended): in the fresh state the gate is open and
`get_risk_status` agrees. -/
theorem get_risk_status_spec_witness :
    can_start_new_trade default_trading_config initRiskState 0 = true ∧
    (get_risk_status default_trading_config initRiskState 0).can_trade = true :=
  ⟨by norm_num [can_start_new_trade, initRiskState, default_trading_config],
    (get_risk_status_spec default_trading_config initRiskState 0).2.2.2.1
      (by norm_num [can_start_new_trade, initRiskState, default_trading_config])⟩

/-- C7. `end_session` computes its totals by aggregating the trades owned by
the session at end time (count and summed pnl), and it is idempotent on the
totals: a second call on the already-ended session returns, and stores on the
session row, the same `total_trades` and `total_pnl`. -/
theorem end_session_spec (db : DB) (sid : String) (e1 e2 : Bool) (t1 t2 : String) :
    (end_session db sid e1 t1).2.total_trades =
      (db.trades.filter (fun t => t.session_id == sid)).length ∧
    (end_session db sid e1 t1).2.total_pnl =
      ((db.trades.filter (fun t => t.session_id == sid)).map TradeRow.pnl).sum ∧
    (end_session (end_session db sid e1 t1).1 sid e2 t2).2.total_trades =
      (end_session db sid e1 t1).2.total_trades ∧
    (end_session (end_session db sid e1 t1).1 sid e2 t2).2.total_pnl =
      (end_session db sid e1 t1).2.total_pnl ∧
    ∀ r ∈ (end_session (end_session db sid e1 t1).1 sid e2 t2).1.sessions,
      r.id = sid →
        r.total_trades = (end_session db sid e1 t1).2.total_trades ∧
        r.total_pnl = (end_session db sid e1 t1).2.total_pnl := by
  refine ⟨rfl, rfl, rfl, rfl, ?_⟩
  intro r hr hid
  simp only [end_session, List.mem_map] at hr
  obtain ⟨r1, _, rfl⟩ := hr
  by_cases h : r1.id == sid
  · simp only [if_pos h]
    exact ⟨rfl, rfl⟩
  · simp only [if_neg h] at hid ⊢
    exact absurd (beq_iff_eq.2 hid) h

/-- A concrete store for the C7 witness: one active session owning two
closed trades with pnl 5 and −2. -/
def trA : TradeRow :=
  { id := "tr1", session_id := "s1", symbol := "BTCUSDT", side := "Buy",
    quantity := 1, entry_price := some 100, exit_price := some 105,
    stop_loss := some 97, take_profit := none, order_id := some "o1",
    order_link_id := some "l1", status := "closed", created_at := "t0",
    closed_at := some "t1", pnl := 5, decision_reasoning := none,
    confidence := some 1, emergency_close := false, metadata := none }

/-- Second trade of the C7 witness store. -/
def trB : TradeRow :=
  { trA with id := "tr2", pnl := -2 }

/-- The C7 witness store. -/
def dbC7 : DB :=
  { sessions := [{ id := "s1", created_at := "t0", ended_at := none,
                   status := "active", emergency_stop := false,
                   total_trades := 0, total_pnl := 0, metadata := none }]
    trades := [trA, trB]
    risk_events := []
    performance_metrics := [] }

/-- Witness for C7: after ending the session twice, the stored row carries
the aggregated totals (2 trades, pnl 3) of the first call. -/
theorem end_session_spec_witness :
    (SessionRow.mk "s1" "t0" (some "t2") "ended" true 2 3 none) ∈
      (end_session (end_session dbC7 "s1" false "t1").1 "s1" true "t2").1.sessions ∧
    (SessionRow.mk "s1" "t0" (some "t2") "ended" true 2 3 none).id = "s1" ∧
    ((SessionRow.mk "s1" "t0" (some "t2") "ended" true 2 3 none).total_trades =
       (end_session dbC7 "s1" false "t1").2.total_trades ∧
     (SessionRow.mk "s1" "t0" (some "t2") "ended" true 2 3 none).total_pnl =
       (end_session dbC7 "s1" false "t1").2.total_pnl) := by
  have hmem : (SessionRow.mk "s1" "t0" (some "t2") "ended" true 2 3 none) ∈
      (end_session (end_session dbC7 "s1" false "t1").1 "s1" true "t2").1.sessions := by
    norm_num [end_session, dbC7, trA, trB]
  exact ⟨hmem, rfl,
    (end_session_spec dbC7 "s1" false true "t1" "t2").2.2.2.2 _ hmem rfl⟩

/-- C8. Calling `stop_trading_session` with no active session returns the
structured error dict and leaves the engine state and the database
untouched. -/
theorem stop_trading_session_inactive_noop (st : EngineState) (db : DB)
    (emergency : Bool) (now : String) (h : st.is_running = false) :
    stop_trading_session st db emergency now =
      (StopResult.error "No active trading session", st, db) := by
  unfold stop_trading_session
  rw [if_pos h]

/-- Witness for C8 at a concrete idle engine and empty store. -/
theorem stop_trading_session_inactive_noop_witness :
    (EngineState.mk none none false).is_running = false ∧
    stop_trading_session (EngineState.mk none none false) (DB.mk [] [] [] [])
        false "t" =
      (StopResult.error "No active trading session", EngineState.mk none none false,
       DB.mk [] [] [] []) :=
  ⟨rfl, stop_trading_session_inactive_noop (EngineState.mk none none false)
    (DB.mk [] [] [] []) false "t" rfl⟩

/-- C9. `validate_trade_parameters` runs the stop-loss check only under
Python `if stop_loss:`: with `stop_loss` equal to `None` or a falsy `0`, and
every other check passing, it returns valid with no errors — although
`check_stop_loss_requirements` called directly on that stop loss is
invalid. -/
theorem validate_trade_parameters_skips_missing_stop_loss
    (cfg : TradingConfig) (s : RiskState) (now : ℚ) (symbol side : String)
    (quantity entry_price : ℚ) (stop_loss take_profit : Option ℚ)
    (position_size_percent : Int) (available_balance : ℚ)
    (hsl : stop_loss = none ∨ stop_loss = some 0)
    (hstart : can_start_new_trade cfg s now = true)
    (hpos : (validate_position_size cfg available_balance position_size_percent
      symbol).isValid = true)
    (hq : 0 < quantity) (he : 0 < entry_price) :
    validate_trade_parameters cfg s now symbol side quantity entry_price stop_loss
        take_profit position_size_percent available_balance = TPResult.mk true [] ∧
    (check_stop_loss_requirements cfg entry_price stop_loss side).isValid = false := by
  constructor
  · unfold validate_trade_parameters
    rcases hpv : validate_position_size cfg available_balance position_size_percent
        symbol with reason | ⟨v, rl⟩
    · rw [hpv] at hpos
      simp [PSResult.isValid] at hpos
    · rcases hsl with rfl | rfl <;>
        simp [hstart, hpv, not_le.mpr hq, not_le.mpr he]
  · rcases hsl with rfl | rfl
    · rfl
    · simp [check_stop_loss_requirements, SLResult.isValid]

/-- Witness for C9: a fresh risk state, a 10% position on a 1000 balance, a
positive quantity and entry price, and no stop loss. -/
theorem validate_trade_parameters_skips_missing_stop_loss_witness :
    ((none : Option ℚ) = none ∨ (none : Option ℚ) = some 0) ∧
    can_start_new_trade default_trading_config initRiskState 0 = true ∧
    (validate_position_size default_trading_config 1000 10 "BTCUSDT").isValid = true ∧
    (0 : ℚ) < 1 ∧ (0 : ℚ) < 100 ∧
    (validate_trade_parameters default_trading_config initRiskState 0 "BTCUSDT" "Buy"
        1 100 none none 10 1000 = TPResult.mk true [] ∧
     (check_stop_loss_requirements default_trading_config 100 none "Buy").isValid
        = false) :=
  ⟨Or.inl rfl,
    by norm_num [can_start_new_trade, initRiskState, default_trading_config],
    by norm_num [validate_position_size, assess_position_risk, PSResult.isValid,
      default_trading_config],
    by norm_num, by norm_num,
    validate_trade_parameters_skips_missing_stop_loss default_trading_config
      initRiskState 0 "BTCUSDT" "Buy" 1 100 none none 10 1000 (Or.inl rfl)
      (by norm_num [can_start_new_trade, initRiskState, default_trading_config])
      (by norm_num [validate_position_size, assess_position_risk, PSResult.isValid,
        default_trading_config])
      (by norm_num) (by norm_num)⟩

/-- C10. `update_trade` writes only the `exit_price`, `stop_loss`,
`take_profit`, `status`, `closed_at`, `pnl`, `emergency_close` and `metadata`
columns of the trade rows whose id matches the given trade; every other
column of those rows, every non-matching trade row, and the other three
tables are unchanged. -/
theorem update_trade_frame (db : DB) (trade : ETrade) :
    (update_trade db trade).sessions = db.sessions ∧
    (update_trade db trade).risk_events = db.risk_events ∧
    (update_trade db trade).performance_metrics = db.performance_metrics ∧
    List.Forall₂ (fun old new =>
        new.id = old.id ∧ new.session_id = old.session_id ∧
        new.symbol = old.symbol ∧ new.side = old.side ∧
        new.quantity = old.quantity ∧ new.entry_price = old.entry_price ∧
        new.order_id = old.order_id ∧ new.order_link_id = old.order_link_id ∧
        new.decision_reasoning = old.decision_reasoning ∧
        new.confidence = old.confidence ∧ new.created_at = old.created_at ∧
        (old.id ≠ trade.id → new = old) ∧
        (old.id = trade.id →
          new.exit_price = trade.exit_price ∧ new.stop_loss = trade.stop_loss ∧
          new.take_profit = trade.take_profit ∧ new.status = trade.status ∧
          new.closed_at = trade.closed_at ∧ new.pnl = trade.pnl.getD 0 ∧
          new.emergency_close = trade.emergency_close.getD false ∧
          new.metadata = some trade.metadata))
      db.trades (update_trade db trade).trades := by
  refine ⟨rfl, rfl, rfl, ?_⟩
  show List.Forall₂ _ db.trades (db.trades.map _)
  induction db.trades with
  | nil => exact List.Forall₂.nil
  | cons a t ih =>
      refine List.Forall₂.cons ?_ ih
      by_cases hid : a.id = trade.id
      · simp [hid]
      · simp [hid]

end TradeExec
